import Mathlib

/-!
Verification of the xscout multi-source ingestion layer.

Shallow embedding of the data model and operations of the xscout repository:
the normalized `Post` record (src/sources/base.py), the per-adapter query
builders, fetch loops, dedup logic and normalization (src/sources/*.py), the
orchestrator (src/scout.py `fetch_posts` and `main`), and the per-adapter
rate limiter.  Network calls are modelled as oracle functions passed to the
fetch loops; Python strings are modelled as Lean `String` (code-point lists),
machine integers from JSON payloads as `Int`, and instants (ISO-8601
timestamp strings) as `Option Int` epoch seconds (`none` = empty string).
-/

/-- Normalized post from any source (src/sources/base.py `Post`).  The
`metadata` dict is omitted: no verified property reads it.  `timestamp`
models the ISO-8601 string as the instant it denotes, `none` for `""`. -/
structure Post where
  source : String
  author : String
  text : String
  url : String
  timestamp : Option Int
  score : Int
deriving DecidableEq, Repr

/-- Python `\s` whitespace test, restricted to the ASCII range (all strings
appearing in the verified properties are ASCII). -/
def pyIsSpace (c : Char) : Bool :=
  c = ' ' || c = '\t' || c = '\n' || c = '\r' || c = Char.ofNat 11 || c = Char.ofNat 12

/-- Python `str.strip()`: drop leading and trailing whitespace. -/
def pyStrip (s : String) : String :=
  ⟨((s.data.dropWhile pyIsSpace).reverse.dropWhile pyIsSpace).reverse⟩

/-- Length bound for `List.dropWhile`, used for termination of the
character-level scanners below. -/
theorem lengthDropWhileLe (p : α → Bool) (l : List α) :
    (l.dropWhile p).length ≤ l.length := by
  induction l with
  | nil => simp
  | cons c rest ih =>
    cases h : p c
    · rw [List.dropWhile_cons_of_neg (by simp [h])]
    · rw [List.dropWhile_cons_of_pos h]
      exact Nat.le_trans ih (Nat.le_succ _)

/-- Python `str.split()` (no separator): maximal runs of non-whitespace
characters, with whitespace runs and empty pieces dropped.  Single
structural pass; `acc` holds the current word reversed. -/
def pyWordsGo : List Char → List Char → List (List Char)
  | [], acc => if acc.isEmpty then [] else [acc.reverse]
  | c :: rest, acc =>
    if pyIsSpace c then
      if acc.isEmpty then pyWordsGo rest [] else acc.reverse :: pyWordsGo rest []
    else pyWordsGo rest (c :: acc)

def pyWords (l : List Char) : List (List Char) :=
  pyWordsGo l []

/-- Python `" ".join(text.split())`: collapse whitespace runs to single
spaces and strip the ends. -/
def pyJoinSplitWs (s : String) : String :=
  ⟨List.intercalate [' '] (pyWords s.data)⟩

/-- Python `re.sub(r"\s+", " ", text)`: replace each maximal whitespace run
by a single space (ends included, no stripping).  The flag records whether
the previous character belonged to a whitespace run already replaced. -/
def collapseWsGo : List Char → Bool → List Char
  | [], _ => []
  | c :: rest, inRun =>
    if pyIsSpace c then
      if inRun then collapseWsGo rest true else ' ' :: collapseWsGo rest true
    else c :: collapseWsGo rest false

def collapseWsRuns (l : List Char) : List Char :=
  collapseWsGo l false

/-- Bool-valued substring test: Python `needle in hay`. -/
def substrB (needle hay : String) : Bool :=
  (List.range (hay.data.length + 1)).any fun i => needle.data.isPrefixOf (hay.data.drop i)

/-- Python `topic.split(",")`: split at every comma, keeping empty pieces
(`""` splits to `[""]`).  Structural so that the kernel can evaluate it. -/
def splitCommaGo : List Char → List Char → List String
  | [], acc => [⟨acc.reverse⟩]
  | c :: rest, acc =>
    if c = ',' then String.mk acc.reverse :: splitCommaGo rest []
    else splitCommaGo rest (c :: acc)

def pySplitComma (s : String) : List String :=
  splitCommaGo s.data []

/-- Python `str.lower()` (ASCII case folding). -/
def lowerStr (s : String) : String :=
  ⟨s.data.map Char.toLower⟩

/-- Python `text[:500].rsplit(" ", 1)[0]`: everything strictly before the
last space character, or the whole list when it holds no space. -/
def takeBeforeLastSpace (l : List Char) : List Char :=
  match l.reverse.dropWhile (fun c => c ≠ ' ') with
  | [] => l
  | _ :: rest => rest.reverse

/-- Variant of `takeBeforeLastSpace` cutting at the last whitespace
character of any kind; used only by the spec-side truncation model. -/
def takeBeforeLastWs (l : List Char) : List Char :=
  match l.reverse.dropWhile (fun c => !pyIsSpace c) with
  | [] => l
  | _ :: rest => rest.reverse

/-! ## Query builders

Every adapter except X carries a private copy of the same builder
(`_build_search_terms` in reddit.py, arxiv.py, civitai.py, lobsters.py,
github.py, and the inline expression in hackernews.py `fetch`):
`if queries: return queries` then
`[t.strip() for t in topic.split(",") if t.strip()] or [topic]`.
Python truthiness of the `queries` argument means a supplied empty list
falls through to the topic split, hence the `some (q :: qs)` pattern. -/

/-- RedditAdapter._build_search_terms (src/sources/reddit.py). -/
def redditBuildSearchTerms (topic : String) (queries : Option (List String)) : List String :=
  match queries with
  | some (q :: qs) => q :: qs
  | _ =>
    let terms := ((pySplitComma topic).map pyStrip).filter (fun t => t ≠ "")
    if terms.isEmpty then [topic] else terms

/-- ArxivAdapter._build_search_terms (src/sources/arxiv.py). -/
def arxivBuildSearchTerms (topic : String) (queries : Option (List String)) : List String :=
  match queries with
  | some (q :: qs) => q :: qs
  | _ =>
    let terms := ((pySplitComma topic).map pyStrip).filter (fun t => t ≠ "")
    if terms.isEmpty then [topic] else terms

/-- CivitAIAdapter._build_search_terms (src/sources/civitai.py). -/
def civitaiBuildSearchTerms (topic : String) (queries : Option (List String)) : List String :=
  match queries with
  | some (q :: qs) => q :: qs
  | _ =>
    let terms := ((pySplitComma topic).map pyStrip).filter (fun t => t ≠ "")
    if terms.isEmpty then [topic] else terms

/-- LobstersAdapter._build_search_terms (src/sources/lobsters.py). -/
def lobstersBuildSearchTerms (topic : String) (queries : Option (List String)) : List String :=
  match queries with
  | some (q :: qs) => q :: qs
  | _ =>
    let terms := ((pySplitComma topic).map pyStrip).filter (fun t => t ≠ "")
    if terms.isEmpty then [topic] else terms

/-- GitHubAdapter._build_search_terms (src/sources/github.py). -/
def githubBuildSearchTerms (topic : String) (queries : Option (List String)) : List String :=
  match queries with
  | some (q :: qs) => q :: qs
  | _ =>
    let terms := ((pySplitComma topic).map pyStrip).filter (fun t => t ≠ "")
    if terms.isEmpty then [topic] else terms

/-- Inline query resolution in HackerNewsAdapter.fetch
(src/sources/hackernews.py lines 29-30). -/
def hackernewsBuildQueries (topic : String) (queries : Option (List String)) : List String :=
  match queries with
  | some (q :: qs) => q :: qs
  | _ =>
    let terms := ((pySplitComma topic).map pyStrip).filter (fun t => t ≠ "")
    if terms.isEmpty then [topic] else terms

/-- Spec-side formulation of the shared default query plan, written from the
spec's words for the refinement comparison: split on commas, trim
whitespace, drop empties; if the result is empty, fall back to a single
term equal to the raw topic string. -/
def specDefaultQueryPlan (topic : String) : List String :=
  let trimmed := ((pySplitComma topic).map pyStrip).filter (fun t => t ≠ "")
  if trimmed.isEmpty then [topic] else trimmed

/-! ## Adapter registry and orchestrator (src/sources/__init__.py, src/scout.py) -/

/-- Adapter classes present in the codebase (one constructor per
`SourceAdapter` subclass under src/sources/). -/
inductive AdapterId
  | x
  | reddit
  | civitai
  | arxiv
  | lobsters
  | hackernews
  | github
  | bluesky
  | huggingface
deriving DecidableEq, Repr

/-- The `name` property of each adapter class (the literal string each
class returns). -/
def adapterName : AdapterId → String
  | .x => "x"
  | .reddit => "reddit"
  | .civitai => "civitai"
  | .arxiv => "arxiv"
  | .lobsters => "lobsters"
  | .hackernews => "hackernews"
  | .github => "github"
  | .bluesky => "bluesky"
  | .huggingface => "huggingface"

/-- The `ADAPTERS` registry dict (src/sources/__init__.py), in insertion
order, mapping registry key to adapter class. -/
def ADAPTERS : List (String × AdapterId) :=
  [("x", .x), ("reddit", .reddit), ("civitai", .civitai), ("arxiv", .arxiv),
   ("lobsters", .lobsters), ("hackernews", .hackernews), ("github", .github)]

/-- Registry lookup `ADAPTERS.get(name)` (src/scout.py line 43). -/
def lookupAdapter (n : String) : Option AdapterId :=
  ADAPTERS.lookup n

/-- Source-list resolution in `main` (src/scout.py): `--source all` expands
to `list(ADAPTERS.keys())`, any other choice is the singleton list. -/
def mainSourceNames (src : String) : List String :=
  if src = "all" then ADAPTERS.map Prod.fst else [src]

/-! ## Local dedup (seen-set loops shared by reddit.py, arxiv.py fetch) -/

/-- One step of the seen-set loop in the adapter fetch methods:
`if post.url not in seen_ids: seen_ids.add(post.url); posts.append(post)`.
State is (collected posts, seen url set as a list). -/
def insertPost (st : List Post × List String) (p : Post) : List Post × List String :=
  if st.2.contains p.url then st else (st.1 ++ [p], p.url :: st.2)

/-- Fold one page/term of results through the seen-set loop. -/
def dedupAppend (st : List Post × List String) (ps : List Post) : List Post × List String :=
  ps.foldl insertPost st

/-- ArxivAdapter.fetch (src/sources/arxiv.py lines 41-56): build the search
terms, then for each term append the term's results through the seen-set
loop.  `searchResults term cap` stands for `self._search(term, cap)` (the
network call plus `_parse`); the adapter passes `min(max_results, 20)` as
the cap.  Note that the source accepts `lookbackHours` but never uses it:
no time filter of any kind is applied. -/
def arxivFetch (searchResults : String → Nat → List Post) (topic : String)
    (lookbackHours : Int) (maxResults : Nat) (queries : Option (List String)) : List Post :=
  let terms := arxivBuildSearchTerms topic queries
  (terms.foldl (fun st t => dedupAppend st (searchResults t (min maxResults 20))) ([], [])).1

/-- TIME_FILTER_MAP lookup `_time_filter` (src/sources/reddit.py lines
57-62): iterate `sorted(TIME_FILTER_MAP.items())` = [(24, day), (168, week),
(720, month)], return the first label whose threshold bounds the lookback,
else "month". -/
def redditTimeFilter (lookbackHours : Int) : String :=
  if lookbackHours ≤ 24 then "day"
  else if lookbackHours ≤ 168 then "week"
  else if lookbackHours ≤ 720 then "month"
  else "month"

/-- DEFAULT_SUBREDDITS (src/sources/reddit.py). -/
def REDDIT_DEFAULT_SUBREDDITS : List String :=
  ["StableDiffusion", "LocalLLaMA", "comfyui", "sdforall"]

/-- RedditAdapter.fetch (src/sources/reddit.py lines 70-97): search all of
Reddit for each term, then the four default subreddits for the first term,
feeding every result page through the seen-set loop.  `searchAll term tf`
stands for `self._search_all(term, tf, max_results)` and
`searchSub sub term tf` for `self._search_subreddit(sub, term, tf,
max_results)` (network calls plus `_normalize`; the result-cap argument is
absorbed into the oracles).  `terms.headD ""` models `search_terms[0]`,
which is always defined since the builder never returns an empty list. -/
def redditFetch (searchAll : String → String → List Post)
    (searchSub : String → String → String → List Post)
    (topic : String) (lookbackHours : Int) (maxResults : Nat)
    (queries : Option (List String)) : List Post :=
  let terms := redditBuildSearchTerms topic queries
  let tf := redditTimeFilter lookbackHours
  let st1 := terms.foldl (fun st t => dedupAppend st (searchAll t tf)) ([], [])
  let st2 := REDDIT_DEFAULT_SUBREDDITS.foldl
    (fun st sub => dedupAppend st (searchSub sub (terms.headD "") tf)) st1
  st2.1

/-! ## X adapter (src/sources/x.py) -/

/-- One tweet object of the X API response (`data` array), fields read by
`XAdapter._normalize` with their `get` defaults collapsed.  `created_at`
models the ISO string passed through to `Post.timestamp`. -/
structure XTweet where
  id : String
  author_id : String
  text : String
  created_at : Option Int
  like_count : Int
  retweet_count : Int
  reply_count : Int
deriving DecidableEq, Repr

/-- The slice of one X API search response that `_normalize` reads:
`includes.users` as (id, username) pairs and the `data` tweet array. -/
structure XResponse where
  users : List (String × String)
  tweets : List XTweet
deriving DecidableEq, Repr

/-- The `author_map` dict comprehension plus
`author_map.get(author_id, "unknown")`: a Python dict keeps the last
binding for a duplicated key, hence the lookup on the reversed list. -/
def xAuthorOf (users : List (String × String)) (authorId : String) : String :=
  (users.reverse.lookup authorId).getD "unknown"

/-- Post construction inside XAdapter._normalize. -/
def xTweetToPost (users : List (String × String)) (tw : XTweet) : Post :=
  { source := "x"
  , author := "@" ++ xAuthorOf users tw.author_id
  , text := tw.text
  , url := "https://x.com/" ++ xAuthorOf users tw.author_id ++ "/status/" ++ tw.id
  , timestamp := tw.created_at
  , score := tw.like_count + tw.retweet_count }

/-- XAdapter._normalize (src/sources/x.py lines 91-113). -/
def xNormalize (r : XResponse) : List Post :=
  r.tweets.map (xTweetToPost r.users)

/-- Query loop of XAdapter.fetch (src/sources/x.py lines 44-68):
`posts.extend(self._normalize(result))` for each query — note there is no
seen-set.  `search q` stands for `self._search(q, start_time, bearer_token,
per_query)`; the credential guard and the `build_topic_queries` fallback
resolve before this loop and are modelled by the caller supplying the
final query list. -/
def xFetch (search : String → XResponse) (queries : List String) : List Post :=
  queries.foldl (fun acc q => acc ++ xNormalize (search q)) []

/-! ## Reddit normalization (src/sources/reddit.py `_normalize`) -/

/-- One Reddit listing child `data` object, fields read by
`RedditAdapter._normalize` with their `get` defaults collapsed (children
with falsy `data` are skipped upstream and not modelled). -/
structure RedditItem where
  title : String
  selftext : String
  author : String
  permalink : String
  created_utc : Int
  score : Int
deriving DecidableEq, Repr

/-- Post construction inside RedditAdapter._normalize (lines 151-165):
text is `f"{title}\n\n{selftext}".strip() if selftext else title`, the url
is the permalink prefixed with the site origin (empty when the permalink is
empty), the score is passed through unchanged. -/
def redditItemToPost (it : RedditItem) : Post :=
  { source := "reddit"
  , author := "u/" ++ it.author
  , text := if it.selftext = "" then it.title else pyStrip (it.title ++ "\n\n" ++ it.selftext)
  , url := if it.permalink = "" then "" else "https://www.reddit.com" ++ it.permalink
  , timestamp := some it.created_utc
  , score := it.score }

/-- RedditAdapter._normalize over the listing children. -/
def redditNormalize (items : List RedditItem) : List Post :=
  items.map redditItemToPost

/-! ## Arxiv entry normalization (src/sources/arxiv.py `_parse`) -/

/-- One `<link>` element of an Arxiv Atom entry: optional `title` attribute
and `href`. -/
structure ArxivLink where
  title : Option String
  href : String
deriving DecidableEq, Repr

/-- One Arxiv Atom entry, fields read by `ArxivAdapter._parse`:
`published` models the normalized publication instant (`none` when the
element is absent), `authors` the collected non-empty author names. -/
structure ArxivEntry where
  title : String
  summary : String
  links : List ArxivLink
  published : Option Int
  authors : List String
  categories : List String
  idUrl : String
deriving DecidableEq, Repr

/-- Link-selection loop of `_parse`: skip links titled "pdf", take the
first href containing "/abs/" (break), otherwise remember the first
non-pdf href seen. -/
def chooseArxivUrlGo : List ArxivLink → String → String
  | [], acc => acc
  | l :: rest, acc =>
    if l.title = some "pdf" then chooseArxivUrlGo rest acc
    else if substrB "/abs/" l.href then l.href
    else chooseArxivUrlGo rest (if acc = "" then l.href else acc)

def chooseArxivUrl (links : List ArxivLink) : String :=
  chooseArxivUrlGo links ""

/-- Abstract normalization in `_parse`: `.strip()` then
`" ".join(abstract.split())`. -/
def arxivNormalizeAbstract (raw : String) : String :=
  pyJoinSplitWs (pyStrip raw)

/-- Abstract snippet of `_parse` (src/sources/arxiv.py lines 92-96):
`snippet = abstract[:ABSTRACT_MAX_CHARS]` plus an ellipsis when the
abstract exceeds the 500-character budget — a hard slice, no word
boundary. -/
def arxivSnippet (raw : String) : String :=
  let a := arxivNormalizeAbstract raw
  if a.length ≤ 500 then a else String.mk (a.data.take 500) ++ "..."

/-- Post construction inside ArxivAdapter._parse (lines 141-154): the
score is the literal 0 (Arxiv exposes no engagement score). -/
def arxivEntryToPost (e : ArxivEntry) : Post :=
  let title := pyJoinSplitWs (pyStrip e.title)
  let url := chooseArxivUrl e.links
  { source := "arxiv"
  , author := if e.authors.isEmpty then "Unknown" else String.intercalate ", " e.authors
  , text := title ++ "\n\n" ++ arxivSnippet e.summary
  , url := if url = "" then e.idUrl else url
  , timestamp := e.published
  , score := 0 }

/-! ## Truncation helpers (civitai.py `_truncate`, github.py issue bodies) -/

/-- HTML-tag stripping state machine modelling
`re.sub(r"<[^>]+>", " ", text)`: a match is `<`, one or more non-`>`
characters, then `>`, replaced by one space; unmatched fragments are kept
verbatim.  State is (output so far, pending buffer of characters seen since
an unclosed `<`, or `none`). -/
def stripHtmlStep (st : List Char × Option (List Char)) (c : Char) :
    List Char × Option (List Char) :=
  match st with
  | (out, none) => if c = '<' then (out, some []) else (out ++ [c], none)
  | (out, some buf) =>
    if c = '>' then
      if buf = [] then (out ++ ['<', '>'], none) else (out ++ [' '], none)
    else (out, some (buf ++ [c]))

def stripHtmlChars (l : List Char) : List Char :=
  let st := l.foldl stripHtmlStep ([], none)
  match st.2 with
  | none => st.1
  | some buf => st.1 ++ '<' :: buf

/-- Cleaning phase of civitai.py `_truncate`: strip HTML tags, collapse
whitespace runs, strip the ends. -/
def civitaiCleanText (text : String) : String :=
  pyStrip ⟨collapseWsRuns (stripHtmlChars text.data)⟩

/-- Function `_truncate(text, max_len)` (src/sources/civitai.py lines 81-91): empty
input gives "", otherwise the cleaned text is returned whole when it fits
the budget, else cut at `text[:max_len].rsplit(" ", 1)[0]` with an
ellipsis appended. -/
def civitaiTruncate (text : String) (maxLen : Nat) : String :=
  if text = "" then ""
  else
    let t := civitaiCleanText text
    if t.length ≤ maxLen then t
    else String.mk (takeBeforeLastSpace (t.data.take maxLen)) ++ "..."

/-- Issue-body truncation in GitHubAdapter._normalize_issues
(src/sources/github.py lines 189-191): bodies over 500 characters become
`body[:500].rsplit(" ", 1)[0] + "..."`. -/
def githubTruncateBody (body : String) : String :=
  if 500 < body.length then String.mk (takeBeforeLastSpace (body.data.take 500)) ++ "..."
  else body

/-- Spec-side truncation model, written from the spec's words for the
refinement comparison: under a 500-character budget the result is broken
at the last whitespace at or before position 500, with the ellipsis marker
appended. -/
def specTruncation500 (body : String) : String :=
  String.mk (takeBeforeLastWs (body.data.take 500)) ++ "..."

/-! ## Orchestrator (src/scout.py `fetch_posts`) -/

/-- Outcome of one `fetch_posts` run: either `sys.exit(1)` on an unknown
source name (a fatal configuration error), or the merged post list.
`invoked` records, in order, the adapters whose `fetch` was entered —
each entered fetch issues that adapter's network calls. -/
inductive FetchOutcome
  | fatal (invoked : List String)
  | ok (invoked : List String) (posts : List Post)
deriving DecidableEq, Repr

/-- Loop body of `fetch_posts` (src/scout.py lines 42-66): for each name in
order, an unregistered name aborts the run at once; a registered adapter's
fetch is invoked, its raised error is caught and contributes nothing, its
result list extends the accumulator.  `env name` stands for the adapter
call `adapter.fetch(...)` (raising modelled as `Except.error`). -/
def fetchPostsGo (env : String → Except String (List Post)) :
    List String → List String → List Post → FetchOutcome
  | [], invoked, acc => .ok invoked acc
  | n :: rest, invoked, acc =>
    match lookupAdapter n with
    | none => .fatal invoked
    | some _ =>
      match env n with
      | .ok ps => fetchPostsGo env rest (invoked ++ [n]) (acc ++ ps)
      | .error _ => fetchPostsGo env rest (invoked ++ [n]) acc

/-- Orchestrator entry `fetch_posts(source_names, ...)` (src/scout.py). -/
def fetchPostsModel (env : String → Except String (List Post)) (names : List String) :
    FetchOutcome :=
  fetchPostsGo env names [] []

/-- What a failed adapter contributes to the merged list: nothing. -/
def errToEmpty (r : Except String (List Post)) : List Post :=
  match r with
  | .ok ps => ps
  | .error _ => []

/-! ## Rate limiter (`_rate_limit` in reddit.py, github.py, civitai.py,
lobsters.py) -/

/-- Sleep duration computed by `_rate_limit`: with `elapsed = now - last`,
sleep `minInterval - elapsed` when `elapsed < minInterval`, else nothing.
Times are rational numbers of seconds on the monotonic clock. -/
def rateLimitSleep (minInterval last now : ℚ) : ℚ :=
  if now - last < minInterval then minInterval - (now - last) else 0

/-- Constant `_MIN_REQUEST_INTERVAL = 6.5` (src/sources/reddit.py). -/
def redditMinInterval : ℚ := 13 / 2

/-- Constant `_MIN_REQUEST_INTERVAL = 7.0` (src/sources/github.py). -/
def githubMinInterval : ℚ := 7

/-! ## CivitAI request construction (src/sources/civitai.py) -/

/-- TYPE_KEYWORDS (src/sources/civitai.py), in dict insertion order. -/
def CIVITAI_TYPE_KEYWORDS : List (String × String) :=
  [("lora", "LORA"), ("checkpoint", "Checkpoint"),
   ("textual inversion", "TextualInversion"), ("embedding", "TextualInversion"),
   ("hypernetwork", "Hypernetwork"), ("controlnet", "Controlnet"),
   ("upscaler", "Upscaler")]

/-- BASE_MODEL_KEYWORDS (src/sources/civitai.py), in dict insertion order. -/
def CIVITAI_BASE_MODEL_KEYWORDS : List (String × String) :=
  [("sdxl", "SDXL 1.0"), ("sd 1.5", "SD 1.5"), ("sd1.5", "SD 1.5"),
   ("sd15", "SD 1.5"), ("pony", "Pony"), ("ponyxl", "Pony"),
   ("ponydiffusion", "Pony"), ("illustrious", "Illustrious"),
   ("flux", "Flux.1 D"), ("chroma", "Chroma")]

/-- CivitAIAdapter._detect_type_filter: first keyword contained in the
lowercased topic wins. -/
def civitaiDetectTypeFilter (topic : String) : Option String :=
  (CIVITAI_TYPE_KEYWORDS.find? (fun kv => substrB kv.1 (lowerStr topic))).map Prod.snd

/-- CivitAIAdapter._detect_base_models: collect the filter value of every
keyword contained in the lowercased topic, without repeating a value. -/
def civitaiDetectBaseModels (topic : String) : List String :=
  CIVITAI_BASE_MODEL_KEYWORDS.foldl
    (fun found kv =>
      if substrB kv.1 (lowerStr topic) && !(found.contains kv.2) then found ++ [kv.2]
      else found)
    []

/-- Function `_period_filter` (src/sources/civitai.py lines 72-77). -/
def civitaiPeriodFilter (lookbackHours : Int) : String :=
  if lookbackHours ≤ 24 then "Day"
  else if lookbackHours ≤ 168 then "Week"
  else if lookbackHours ≤ 720 then "Month"
  else "Month"

/-- The query-relevant parameters of one `_search_models` HTTP request
(src/sources/civitai.py): the fixed `sort=Newest`/`nsfw=false` parameters
are omitted. -/
structure CivitaiRequest where
  query : String
  period : String
  limit : Nat
  types : Option String
  baseModel : Option String
deriving DecidableEq, Repr

/-- Outbound request list constructed by CivitAIAdapter.fetch (lines
99-132): one request per search term, then one per detected base-model
hint using the first search term (`search_terms[0] if search_terms else
topic`).  The type filter and the base-model hints are always derived from
`topic`, also when explicit queries are supplied. -/
def civitaiRequests (topic : String) (lookbackHours : Int) (maxResults : Nat)
    (queries : Option (List String)) : List CivitaiRequest :=
  let terms := civitaiBuildSearchTerms topic queries
  let period := civitaiPeriodFilter lookbackHours
  let tf := civitaiDetectTypeFilter topic
  let hints := civitaiDetectBaseModels topic
  terms.map (fun t => ⟨t, period, min maxResults 20, tf, none⟩) ++
    hints.map (fun bm =>
      ⟨if terms.isEmpty then topic else terms.headD "", period, min maxResults 20, tf, some bm⟩)

/-! ## X query resolution (src/sources/x.py lines 51-57) -/

/-- Query resolution at the top of XAdapter.fetch: `if not queries:
queries = build_topic_queries(topic)`.  A non-empty supplied list is used
as-is; `None` or an empty list falls back to the topic-query builder from
queries.py, which lives outside src/ and is therefore passed as a
parameter. -/
def xResolveQueries (buildTopicQueries : String → List String) (topic : String)
    (queries : Option (List String)) : List String :=
  match queries with
  | some (q :: qs) => q :: qs
  | _ => buildTopicQueries topic

/-- XAdapter.fetch including its query resolution: resolve the query list,
then run the per-query search loop. -/
def xFetchResolved (buildTopicQueries : String → List String)
    (search : String → XResponse) (topic : String)
    (queries : Option (List String)) : List Post :=
  xFetch search (xResolveQueries buildTopicQueries topic queries)

/-! ## GitHub fetch loop (src/sources/github.py lines 62-90) -/

/-- GitHubAdapter.fetch: search repositories for each term, then issues
for each term, feeding every result through one url-keyed seen-set loop.
`searchRepos term` stands for `self._search_repos(term, cutoff,
max_results)` and `searchIssues term` for `self._search_issues(term,
cutoff, max_results)`; the cutoff date and result cap are absorbed into
the oracles as in the reddit model. -/
def githubFetch (searchRepos searchIssues : String → List Post) (topic : String)
    (lookbackHours : Int) (maxResults : Nat)
    (queries : Option (List String)) : List Post :=
  let terms := githubBuildSearchTerms topic queries
  let st1 := terms.foldl (fun st t => dedupAppend st (searchRepos t)) ([], [])
  let st2 := terms.foldl (fun st t => dedupAppend st (searchIssues t)) st1
  st2.1

/-! ## Lobsters fetch loop (src/sources/lobsters.py lines 57-85) -/

/-- ASCII alphanumeric test for the `[a-zA-Z0-9]+` runs of
`_extract_tags`. -/
def isAsciiAlnum (c : Char) : Bool :=
  (97 ≤ c.toNat && c.toNat ≤ 122) || (65 ≤ c.toNat && c.toNat ≤ 90) ||
    (48 ≤ c.toNat && c.toNat ≤ 57)

/-- Lowercase-or-digit test for the `re.sub(r'[^a-z0-9]', '', word)` filter
of `_extract_keywords`. -/
def isLowerDigit (c : Char) : Bool :=
  (97 ≤ c.toNat && c.toNat ≤ 122) || (48 ≤ c.toNat && c.toNat ≤ 57)

/-- Python `re.findall(r'[a-zA-Z0-9]+', s)`: the maximal alphanumeric runs
of `s`, in order.  `acc` holds the current run reversed. -/
def alnumRunsGo : List Char → List Char → List String
  | [], acc => if acc.isEmpty then [] else [⟨acc.reverse⟩]
  | c :: rest, acc =>
    if isAsciiAlnum c then alnumRunsGo rest (c :: acc)
    else if acc.isEmpty then alnumRunsGo rest []
    else String.mk acc.reverse :: alnumRunsGo rest []

/-- Stop-word set excluded from Lobsters tag candidates
(src/sources/lobsters.py `_extract_tags`). -/
def LOBSTERS_STOPWORDS : List String :=
  ["the", "and", "for", "with", "about", "from", "that", "this"]

/-- Sorted insertion for `sortStrings` (any correct comparison sort equals
Python `sorted` on a duplicate-free list, the order being code-point
lexicographic in both). -/
def insertSorted (x : String) : List String → List String
  | [] => [x]
  | y :: rest => if x ≤ y then x :: y :: rest else y :: insertSorted x rest

def sortStrings (l : List String) : List String :=
  l.foldr insertSorted []

/-- LobstersAdapter._extract_tags: collect (set semantics) every
alphanumeric run of at least two characters from the lowercased terms that
is not a stop word, and return them sorted. -/
def lobstersExtractTags (terms : List String) : List String :=
  sortStrings (terms.foldl (fun acc term =>
    (alnumRunsGo (lowerStr term).data []).foldl (fun acc2 w =>
      if 2 ≤ w.length && !(LOBSTERS_STOPWORDS.contains w) && !(acc2.contains w)
      then acc2 ++ [w] else acc2) acc) [])

/-- LobstersAdapter._extract_keywords: for each whitespace-separated word
of each lowercased term, keep only its lowercase-alphanumeric characters
and collect the results of length at least three. -/
def lobstersExtractKeywords (terms : List String) : List String :=
  terms.foldl (fun acc term =>
    (pyWords (lowerStr term).data).foldl (fun acc2 w =>
      let w2 : String := ⟨w.filter isLowerDigit⟩
      if 3 ≤ w2.length then acc2 ++ [w2] else acc2) acc) []

/-- LobstersAdapter.fetch: fetch stories for every extracted tag, then —
when any keywords were extracted — the keyword-filtered newest scan, all
through one url-keyed seen-set loop.  `fetchByTag tag` stands for
`self._fetch_by_tag(tag, cutoff, max_results)` and `fetchNewest keywords`
for `self._fetch_newest_filtered(keywords, cutoff, max_results, 4)`; the
cutoff and result cap are absorbed into the oracles. -/
def lobstersFetch (fetchByTag : String → List Post)
    (fetchNewest : List String → List Post) (topic : String)
    (lookbackHours : Int) (maxResults : Nat)
    (queries : Option (List String)) : List Post :=
  let terms := lobstersBuildSearchTerms topic queries
  let tags := lobstersExtractTags terms
  let st1 := tags.foldl (fun st tag => dedupAppend st (fetchByTag tag)) ([], [])
  let keywords := lobstersExtractKeywords terms
  let st2 := if keywords.isEmpty then st1 else dedupAppend st1 (fetchNewest keywords)
  st2.1

/-! ## Theorems -/

/-- C9: for every registered adapter using the shared default query builder
and every topic string, when no explicit queries are given the constructed
search-term list equals the topic split on commas with each piece
whitespace-trimmed and empty pieces dropped, falling back to the single
raw topic string when that split yields no terms (the spec-side
`specDefaultQueryPlan`). -/
theorem default_query_plan_refines_spec (topic : String) :
    redditBuildSearchTerms topic none = specDefaultQueryPlan topic ∧
    arxivBuildSearchTerms topic none = specDefaultQueryPlan topic ∧
    hackernewsBuildQueries topic none = specDefaultQueryPlan topic ∧
    civitaiBuildSearchTerms topic none = specDefaultQueryPlan topic ∧
    lobstersBuildSearchTerms topic none = specDefaultQueryPlan topic ∧
    githubBuildSearchTerms topic none = specDefaultQueryPlan topic :=
  ⟨rfl, rfl, rfl, rfl, rfl, rfl⟩

/-- A successful registry lookup returns one of the registered adapter
classes. -/
theorem lookupMemSnd :
    ∀ (l : List (String × AdapterId)) (n : String) (a : AdapterId),
      l.lookup n = some a → a ∈ l.map Prod.snd := by
  intro l
  induction l with
  | nil => intro n a h; simp [List.lookup] at h
  | cons kv rest ih =>
    intro n a h
    obtain ⟨k, v⟩ := kv
    cases hk : (n == k)
    · simp only [List.lookup, hk] at h
      exact List.mem_cons_of_mem _ (ih n a h)
    · simp only [List.lookup, hk] at h
      obtain rfl : v = a := Option.some_injective _ h
      exact List.mem_cons_self _ _

/-- C10: the adapter registry maps exactly the seven names x, reddit,
civitai, arxiv, lobsters, hackernews, github; each registered class's
`name` property equals its registry key; no registry lookup can produce
the Bluesky or HuggingFace adapter classes (so no orchestrator run invokes
them); and the "all" source selection expands to exactly the registry
keys. -/
theorem registry_seven_adapters :
    ADAPTERS.map Prod.fst =
      ["x", "reddit", "civitai", "arxiv", "lobsters", "hackernews", "github"] ∧
    (∀ p ∈ ADAPTERS, adapterName p.2 = p.1) ∧
    (∀ n a, lookupAdapter n = some a →
      a ≠ AdapterId.bluesky ∧ a ≠ AdapterId.huggingface) ∧
    mainSourceNames "all" = ADAPTERS.map Prod.fst := by
  refine ⟨by decide, by decide, ?_, by decide⟩
  intro n a h
  have hall : ∀ b ∈ ADAPTERS.map Prod.snd,
      b ≠ AdapterId.bluesky ∧ b ≠ AdapterId.huggingface := by decide
  exact hall a (lookupMemSnd ADAPTERS n a h)

/-- Witness for `registry_seven_adapters` at the registry entry for "x". -/
theorem registry_seven_adapters_witness :
    adapterName AdapterId.x = "x" ∧
    (AdapterId.x ≠ AdapterId.bluesky ∧ AdapterId.x ≠ AdapterId.huggingface) :=
  ⟨registry_seven_adapters.2.1 ("x", AdapterId.x) (by decide),
   registry_seven_adapters.2.2.1 "x" AdapterId.x (by decide)⟩

/-- C5: the rate limiter guarantees the configured spacing.  `last` is the
recorded monotonic timestamp of the previous request start; `now` is the
clock reading on entry; `rateLimitSleep` is the suspension `_rate_limit`
performs; `now2` is any clock reading at or after the wait ends (the value
recorded as the new timestamp, at which the request starts).  The gap
between the two request starts is at least the minimum interval. -/
theorem rate_limiter_spacing (minInterval last now now2 : ℚ)
    (h : now + rateLimitSleep minInterval last now ≤ now2) :
    minInterval ≤ now2 - last := by
  unfold rateLimitSleep at h
  split at h
  · linarith
  · linarith

/-- Witness for `rate_limiter_spacing`: Reddit's 6.5-second interval, a
previous request at time 0 and a new call arriving at time 3 that is put
to sleep until 6.5. -/
theorem rate_limiter_spacing_witness : redditMinInterval ≤ (13 / 2 : ℚ) - 0 :=
  rate_limiter_spacing redditMinInterval 0 3 (13 / 2)
    (by norm_num [rateLimitSleep, redditMinInterval])

/-- Order-preserving merge of the per-adapter contributions: a failed
adapter contributes zero posts, a successful one its normal result list. -/
def mergeEnv (env : String → Except String (List Post)) : List String → List Post
  | [] => []
  | n :: rest => errToEmpty (env n) ++ mergeEnv env rest

/-- Loop invariant for `fetch_posts` over registered names. -/
theorem fetchPostsGo_ok (env : String → Except String (List Post)) :
    ∀ (names invoked : List String) (acc : List Post),
      (∀ n ∈ names, (lookupAdapter n).isSome) →
      fetchPostsGo env names invoked acc =
        .ok (invoked ++ names) (acc ++ mergeEnv env names) := by
  intro names
  induction names with
  | nil => intro invoked acc _; simp [fetchPostsGo, mergeEnv]
  | cons n rest ih =>
    intro invoked acc h
    have hn : (lookupAdapter n).isSome := h n (List.mem_cons_self n rest)
    obtain ⟨a, ha⟩ := Option.isSome_iff_exists.mp hn
    have hrest : ∀ m ∈ rest, (lookupAdapter m).isSome :=
      fun m hm => h m (List.mem_cons_of_mem n hm)
    cases he : env n with
    | ok ps =>
      simp only [fetchPostsGo, ha, he, ih (invoked ++ [n]) (acc ++ ps) hrest,
        mergeEnv, errToEmpty]
      simp [List.append_assoc]
    | error msg =>
      simp only [fetchPostsGo, ha, he, ih (invoked ++ [n]) acc hrest,
        mergeEnv, errToEmpty]
      simp [List.append_assoc]

/-- C4: for every list of registered source names, the orchestrator never
aborts: every adapter in the list is invoked in order, an adapter whose
fetch raises contributes zero posts, the others contribute their normal
results, and the caller receives the merged (possibly empty) list. -/
theorem orchestrator_partial_failure (env : String → Except String (List Post))
    (names : List String) (h : ∀ n ∈ names, (lookupAdapter n).isSome) :
    fetchPostsModel env names = .ok names (mergeEnv env names) := by
  simpa using fetchPostsGo_ok env names [] [] h

/-- Concrete post and environment for the partial-failure witness: the
reddit adapter raises, the arxiv adapter returns one post. -/
def c4Post : Post :=
  { source := "arxiv", author := "Doe", text := "Paper", timestamp := some 1760227200
  , url := "http://arxiv.org/abs/2410.00001v1", score := 0 }

def c4Env : String → Except String (List Post) :=
  fun n => if n = "reddit" then .error "HTTP 500" else .ok [c4Post]

/-- Witness for `orchestrator_partial_failure`: with reddit failing and
arxiv succeeding, the run still completes and merges arxiv's post. -/
theorem orchestrator_partial_failure_witness :
    fetchPostsModel c4Env ["reddit", "arxiv"] =
      .ok ["reddit", "arxiv"] (mergeEnv c4Env ["reddit", "arxiv"]) :=
  orchestrator_partial_failure c4Env ["reddit", "arxiv"] (by decide)

/-! ## Dedup invariant for the seen-set loops -/

/-- Invariant of the seen-set loop state: collected urls are pairwise
distinct and every collected url has been recorded in the seen set. -/
def dedupInv (st : List Post × List String) : Prop :=
  (st.1.map (fun p => p.url)).Nodup ∧ ∀ p ∈ st.1, p.url ∈ st.2

theorem insertPost_inv (st : List Post × List String) (p : Post)
    (h : dedupInv st) : dedupInv (insertPost st p) := by
  obtain ⟨h1, h2⟩ := h
  unfold insertPost
  split
  · exact ⟨h1, h2⟩
  · rename_i hc
    have hmem : p.url ∉ st.2 := fun hm => hc (List.elem_eq_true_of_mem hm)
    constructor
    · rw [List.map_append]
      refine List.Nodup.append h1 (List.nodup_singleton _) ?_
      intro a ha hb
      simp only [List.map_cons, List.map_nil, List.mem_singleton] at hb
      subst hb
      obtain ⟨q, hq, hq2⟩ := List.mem_map.mp ha
      exact hmem (hq2 ▸ h2 q hq)
    · intro q hq
      rcases List.mem_append.mp hq with hq | hq
      · exact List.mem_cons_of_mem _ (h2 q hq)
      · rw [List.mem_singleton] at hq
        subst hq
        exact List.mem_cons_self _ _

theorem dedupAppend_inv :
    ∀ (ps : List Post) (st : List Post × List String),
      dedupInv st → dedupInv (dedupAppend st ps) := by
  intro ps
  induction ps with
  | nil => intro st h; simpa [dedupAppend] using h
  | cons p rest ih =>
    intro st h
    simpa [dedupAppend] using ih (insertPost st p) (insertPost_inv st p h)

theorem foldDedup_inv {α : Type} (f : α → List Post) :
    ∀ (l : List α) (st : List Post × List String),
      dedupInv st → dedupInv (l.foldl (fun s t => dedupAppend s (f t)) st) := by
  intro l
  induction l with
  | nil => intro st h; simpa using h
  | cons t rest ih =>
    intro st h
    simpa using ih (dedupAppend st (f t)) (dedupAppend_inv (f t) st h)

/-- C2 (amended): the four adapters whose fetch loops key their seen set
by `Post.url` — reddit, arxiv, github and lobsters — route every result
through that seen set, so no two posts returned by one of their fetch
calls share a url.  The X adapter, refuted separately, keeps no seen set;
hackernews and civitai key their seen sets by source-native identifier
rather than url and are outside this url-uniqueness statement. -/
theorem local_dedup_amended :
    (∀ searchAll searchSub topic lookbackHours maxResults queries,
      ((redditFetch searchAll searchSub topic lookbackHours maxResults queries).map
        (fun p => p.url)).Nodup) ∧
    (∀ searchResults topic lookbackHours maxResults queries,
      ((arxivFetch searchResults topic lookbackHours maxResults queries).map
        (fun p => p.url)).Nodup) ∧
    (∀ searchRepos searchIssues topic lookbackHours maxResults queries,
      ((githubFetch searchRepos searchIssues topic lookbackHours maxResults queries).map
        (fun p => p.url)).Nodup) ∧
    (∀ fetchByTag fetchNewest topic lookbackHours maxResults queries,
      ((lobstersFetch fetchByTag fetchNewest topic lookbackHours maxResults queries).map
        (fun p => p.url)).Nodup) := by
  have base : dedupInv ([], []) := ⟨List.nodup_nil, by simp⟩
  refine ⟨?_, ?_, ?_, ?_⟩
  · intro sa ss topic lb mr q
    exact (foldDedup_inv
      (fun sub => ss sub ((redditBuildSearchTerms topic q).headD "") (redditTimeFilter lb))
      REDDIT_DEFAULT_SUBREDDITS _
      (foldDedup_inv (fun t => sa t (redditTimeFilter lb))
        (redditBuildSearchTerms topic q) ([], []) base)).1
  · intro sr topic lb mr q
    exact (foldDedup_inv (fun t => sr t (min mr 20))
      (arxivBuildSearchTerms topic q) ([], []) base).1
  · intro sr si topic lb mr q
    exact (foldDedup_inv si (githubBuildSearchTerms topic q) _
      (foldDedup_inv sr (githubBuildSearchTerms topic q) ([], []) base)).1
  · intro ft fn topic lb mr q
    have h1 := foldDedup_inv ft
      (lobstersExtractTags (lobstersBuildSearchTerms topic q)) ([], []) base
    simp only [lobstersFetch]
    split
    · exact h1.1
    · exact (dedupAppend_inv
        (fn (lobstersExtractKeywords (lobstersBuildSearchTerms topic q))) _ h1).1

/-- One tweet returned identically for two different queries. -/
def dupTweet : XTweet :=
  { id := "1", author_id := "A", text := "llama.cpp ships gguf"
  , created_at := some 1760220000, like_count := 2, retweet_count := 1, reply_count := 0 }

def dupXResponse : XResponse :=
  { users := [("A", "alice")], tweets := [dupTweet] }

/-- C2 counterexample: XAdapter.fetch keeps no seen set, so one X fetch
call whose two queries both match the same tweet returns two posts with
the same non-empty url. -/
theorem x_fetch_duplicate_urls :
    ¬ (((xFetch (fun _ => dupXResponse) ["llama.cpp", "gguf"]).map
      (fun p => p.url)).Nodup) := by decide

/-- Loop lemma for `fetch_posts` reaching the first unknown name: every
registered name before it is invoked, then the run aborts. -/
theorem fetchPostsGo_fatal (env : String → Except String (List Post)) :
    ∀ (pre : List String) (n : String) (rest invoked : List String) (acc : List Post),
      (∀ m ∈ pre, (lookupAdapter m).isSome) → lookupAdapter n = none →
      fetchPostsGo env (pre ++ n :: rest) invoked acc = .fatal (invoked ++ pre) := by
  intro pre
  induction pre with
  | nil => intro n rest invoked acc _ hn; simp [fetchPostsGo, hn]
  | cons m pre ih =>
    intro n rest invoked acc h hn
    have hm : (lookupAdapter m).isSome := h m (List.mem_cons_self m pre)
    obtain ⟨a, ha⟩ := Option.isSome_iff_exists.mp hm
    have hpre : ∀ k ∈ pre, (lookupAdapter k).isSome :=
      fun k hk => h k (List.mem_cons_of_mem m hk)
    cases he : env m with
    | ok ps =>
      rw [List.cons_append]
      simp only [fetchPostsGo, ha, he, ih n rest (invoked ++ [m]) (acc ++ ps) hpre hn]
      simp
    | error msg =>
      rw [List.cons_append]
      simp only [fetchPostsGo, ha, he, ih n rest (invoked ++ [m]) acc hpre hn]
      simp

/-- C3 (amended): the orchestrator validates each requested name only when
the loop reaches it.  On the first unknown name it aborts with a fatal
configuration error before invoking that or any later adapter, but every
registered adapter earlier in the list has already been invoked (and hence
issued its network calls); only when the unknown name comes first are zero
calls made. -/
theorem unknown_source_aborts_at_first_unknown
    (env : String → Except String (List Post)) (pre : List String) (n : String)
    (rest : List String) (h : ∀ m ∈ pre, (lookupAdapter m).isSome)
    (hn : lookupAdapter n = none) :
    fetchPostsModel env (pre ++ n :: rest) = .fatal pre := by
  simpa using fetchPostsGo_fatal env pre n rest [] [] h hn

/-- C3 counterexample: requesting `["reddit", "foo"]` does abort with a
configuration error, but only after the registered reddit adapter has
already been invoked — the invoked list is not empty, contradicting the
claim that zero calls are made for registered names preceding the unknown
one. -/
theorem unknown_source_counterexample :
    fetchPostsModel (fun _ => Except.ok []) ["reddit", "foo"] =
      .fatal ["reddit"] ∧ (["reddit"] : List String) ≠ [] :=
  ⟨by decide, by decide⟩

/-- Witness for `unknown_source_aborts_at_first_unknown` on the list
`["arxiv", "bar"]`. -/
theorem unknown_source_aborts_witness :
    fetchPostsModel (fun _ => Except.ok []) (["arxiv"] ++ "bar" :: []) =
      .fatal ["arxiv"] :=
  unknown_source_aborts_at_first_unknown (fun _ => Except.ok [])
    ["arxiv"] "bar" [] (by decide) (by decide)

/-- Collection instant used by the C1 failing input:
2026-10-12T00:00:00Z as epoch seconds. -/
def c1Now : Int := 1760227200

/-- A paper published 2020-01-01T00:00:00Z, far older than any 24-hour
window. -/
def arxivOldPost : Post :=
  { source := "arxiv", author := "Doe", text := "Old paper"
  , url := "http://arxiv.org/abs/2001.00001v1", timestamp := some 1577836800, score := 0 }

/-- C1 (code bug): ArxivAdapter.fetch applies no time filter at all — its
result is independent of the lookback window, and a search result whose
timestamp lies years before (now − 24h) is returned unchanged, violating
the cutoff invariant the spec states for all adapters. -/
theorem arxiv_fetch_ignores_lookback :
    (∀ searchResults topic maxResults queries (h1 h2 : Int),
      arxivFetch searchResults topic h1 maxResults queries =
        arxivFetch searchResults topic h2 maxResults queries) ∧
    (arxivFetch (fun _ _ => [arxivOldPost]) "llm" 24 100 none = [arxivOldPost] ∧
      arxivOldPost.timestamp = some 1577836800 ∧
      (1577836800 : Int) < c1Now - 24 * 3600) :=
  ⟨fun _ _ _ _ _ _ => rfl, by decide, by decide, by decide⟩

/-- C7 counterexample: two CivitAI fetch calls with the same explicit
query list but different topics construct different outbound requests —
the topic "lora" switches on the LORA type filter even though the query
plan is fixed by the explicit queries. -/
theorem civitai_topic_leaks_into_requests :
    civitaiRequests "lora" 24 100 (some ["qqq"]) ≠
      civitaiRequests "" 24 100 (some ["qqq"]) := by decide

/-- C7 (amended): a non-empty explicit query list takes precedence for
query construction in every adapter — the six shared-builder adapters use
exactly the explicit queries as their search terms, and the X adapter
bypasses its topic-query builder entirely, so the X, reddit, arxiv, github
and lobsters fetches are then topic-independent end to end; CivitAI alone
still derives its type filter and base-model filter requests from the
topic, so its full outbound request list is not topic-independent (only
the query strings themselves are). -/
theorem explicit_queries_take_precedence_amended :
    (∀ t q qs,
      redditBuildSearchTerms t (some (q :: qs)) = q :: qs ∧
      arxivBuildSearchTerms t (some (q :: qs)) = q :: qs ∧
      hackernewsBuildQueries t (some (q :: qs)) = q :: qs ∧
      lobstersBuildSearchTerms t (some (q :: qs)) = q :: qs ∧
      githubBuildSearchTerms t (some (q :: qs)) = q :: qs ∧
      civitaiBuildSearchTerms t (some (q :: qs)) = q :: qs) ∧
    (∀ builder t q qs, xResolveQueries builder t (some (q :: qs)) = q :: qs) ∧
    (∀ builder search t1 t2 q qs,
      xFetchResolved builder search t1 (some (q :: qs)) =
        xFetchResolved builder search t2 (some (q :: qs))) ∧
    (∀ sa ss t1 t2 lb mr q qs,
      redditFetch sa ss t1 lb mr (some (q :: qs)) =
        redditFetch sa ss t2 lb mr (some (q :: qs))) ∧
    (∀ sr t1 t2 lb mr q qs,
      arxivFetch sr t1 lb mr (some (q :: qs)) =
        arxivFetch sr t2 lb mr (some (q :: qs))) ∧
    (∀ sr si t1 t2 lb mr q qs,
      githubFetch sr si t1 lb mr (some (q :: qs)) =
        githubFetch sr si t2 lb mr (some (q :: qs))) ∧
    (∀ ft fn t1 t2 lb mr q qs,
      lobstersFetch ft fn t1 lb mr (some (q :: qs)) =
        lobstersFetch ft fn t2 lb mr (some (q :: qs))) ∧
    (∀ t lb mr q qs,
      (civitaiRequests t lb mr (some (q :: qs))).map (fun r => r.query) =
        (q :: qs) ++ (civitaiDetectBaseModels t).map (fun _ => q)) := by
  refine ⟨fun t q qs => ⟨rfl, rfl, rfl, rfl, rfl, rfl⟩,
    fun builder t q qs => rfl,
    fun builder search t1 t2 q qs => rfl,
    fun sa ss t1 t2 lb mr q qs => rfl,
    fun sr t1 t2 lb mr q qs => rfl,
    fun sr si t1 t2 lb mr q qs => rfl,
    fun ft fn t1 t2 lb mr q qs => rfl, ?_⟩
  intro t lb mr q qs
  simp [civitaiRequests, civitaiBuildSearchTerms, List.map_map, Function.comp_def]

/-- A Reddit listing item whose score field is negative (a heavily
downvoted post, as the Reddit API reports it). -/
def downvotedItem : RedditItem :=
  { title := "Bad post", selftext := "", author := "alice"
  , permalink := "/r/test/comments/1/bad/", created_utc := 1760220000, score := -5 }

/-- C8 counterexample: the reddit adapter passes the source score through
unclamped, so a fetch whose API response carries score −5 returns a Post
with a negative score. -/
theorem reddit_negative_score_counterexample :
    ¬ (∀ p ∈ redditFetch (fun _ _ => redditNormalize [downvotedItem]) (fun _ _ _ => [])
        "gguf" 24 100 none, 0 ≤ p.score) := by decide

/-- C8 (amended): arxiv posts (no native engagement score) always carry
score 0; X posts carry likes + retweets, nonnegative whenever the API
counts are; reddit posts carry the source's score field verbatim, without
clamping, so the nonnegativity of reddit scores holds only as far as the
source reports nonnegative values. -/
theorem score_policy_amended :
    (∀ e : ArxivEntry, (arxivEntryToPost e).score = 0) ∧
    (∀ it : RedditItem, (redditItemToPost it).score = it.score) ∧
    (∀ users (tw : XTweet),
      (xTweetToPost users tw).score = tw.like_count + tw.retweet_count) ∧
    (∀ users (tw : XTweet), 0 ≤ tw.like_count → 0 ≤ tw.retweet_count →
      0 ≤ (xTweetToPost users tw).score) := by
  refine ⟨fun _ => rfl, fun _ => rfl, fun _ _ => rfl, ?_⟩
  intro users tw h1 h2
  simpa [xTweetToPost] using add_nonneg h1 h2

/-- A tweet with positive engagement counts. -/
def likedTweet : XTweet :=
  { id := "7", author_id := "B", text := "new release"
  , created_at := some 1760220000, like_count := 3, retweet_count := 2, reply_count := 1 }

/-- Witness for `score_policy_amended` on a concrete tweet. -/
theorem score_policy_amended_witness :
    0 ≤ (xTweetToPost [("B", "bob")] likedTweet).score :=
  score_policy_amended.2.2.2 [("B", "bob")] likedTweet (by decide) (by decide)

/-- Length of a string built from an explicit character list. -/
theorem stringMk_length (l : List Char) : (String.mk l).length = l.length := rfl

/-- Cutting before the last space never lengthens a list. -/
theorem takeBeforeLastSpace_length_le (l : List Char) :
    (takeBeforeLastSpace l).length ≤ l.length := by
  unfold takeBeforeLastSpace
  cases h : l.reverse.dropWhile (fun c => c ≠ ' ') with
  | nil => exact le_refl _
  | cons c rest =>
    have h1 := lengthDropWhileLe (fun c => c ≠ ' ') l.reverse
    rw [h] at h1
    simp only [List.length_cons, List.length_reverse] at h1 ⊢
    omega

/-- An abstract of 504 characters whose only whitespace sits at position 2:
the hard slice at 500 cuts inside the trailing word. -/
def longAbstract : String := "ab " ++ String.mk (List.replicate 501 'c')

set_option maxRecDepth 100000 in
/-- C6 counterexample: the arxiv abstract snippet truncates a long body
under the 500-character budget by a hard character slice, not at the last
whitespace at or before position 500 as the claim requires for every
truncating adapter. -/
theorem arxiv_snippet_not_word_boundary :
    500 < longAbstract.length ∧
    arxivSnippet longAbstract ≠ specTruncation500 longAbstract := by
  constructor
  · decide
  · decide

/-- C6 (amended): every truncating adapter keeps long bodies within
503 characters (500 plus the ellipsis marker); the civitai and github
truncations break at the last space at or before position 500, while the
arxiv snippet cuts at exactly 500 characters with no word-boundary
breaking. -/
theorem truncation_amended :
    (∀ t, (civitaiTruncate t 500).length ≤ 503) ∧
    (∀ t, 500 < (civitaiCleanText t).length →
      civitaiTruncate t 500 =
        String.mk (takeBeforeLastSpace ((civitaiCleanText t).data.take 500)) ++ "...") ∧
    (∀ b, 500 < b.length →
      githubTruncateBody b = String.mk (takeBeforeLastSpace (b.data.take 500)) ++ "..." ∧
      (githubTruncateBody b).length ≤ 503) ∧
    (∀ a, 500 < (arxivNormalizeAbstract a).length →
      arxivSnippet a = String.mk ((arxivNormalizeAbstract a).data.take 500) ++ "..." ∧
      (arxivSnippet a).length = 503) := by
  refine ⟨?_, ?_, ?_, ?_⟩
  · intro t
    by_cases ht : t = ""
    · subst ht
      have he : civitaiTruncate "" 500 = "" := rfl
      rw [he]
      decide
    · unfold civitaiTruncate
      rw [if_neg ht]
      show (if (civitaiCleanText t).length ≤ 500 then civitaiCleanText t
        else String.mk (takeBeforeLastSpace ((civitaiCleanText t).data.take 500)) ++
          "...").length ≤ 503
      by_cases hle : (civitaiCleanText t).length ≤ 500
      · rw [if_pos hle]
        omega
      · rw [if_neg hle]
        have hsp := takeBeforeLastSpace_length_le ((civitaiCleanText t).data.take 500)
        have htk : ((civitaiCleanText t).data.take 500).length ≤ 500 := by
          simp [List.length_take]
        rw [String.length_append, stringMk_length]
        have h3 : ("..." : String).length = 3 := rfl
        omega
  · intro t h
    have ht : t ≠ "" := by
      intro ht
      rw [ht] at h
      have hclean : civitaiCleanText "" = "" := rfl
      rw [hclean] at h
      simp at h
    unfold civitaiTruncate
    rw [if_neg ht]
    show (if (civitaiCleanText t).length ≤ 500 then civitaiCleanText t
      else String.mk (takeBeforeLastSpace ((civitaiCleanText t).data.take 500)) ++ "...") = _
    rw [if_neg (by omega)]
  · intro b h
    rw [githubTruncateBody, if_pos h]
    refine ⟨rfl, ?_⟩
    have hsp := takeBeforeLastSpace_length_le (b.data.take 500)
    have htk : (b.data.take 500).length ≤ 500 := by simp [List.length_take]
    rw [String.length_append, stringMk_length]
    have h3 : ("..." : String).length = 3 := rfl
    omega
  · intro a h
    unfold arxivSnippet
    show (if (arxivNormalizeAbstract a).length ≤ 500 then arxivNormalizeAbstract a
      else String.mk ((arxivNormalizeAbstract a).data.take 500) ++ "...") = _ ∧
      (if (arxivNormalizeAbstract a).length ≤ 500 then arxivNormalizeAbstract a
      else String.mk ((arxivNormalizeAbstract a).data.take 500) ++ "...").length = 503
    rw [if_neg (by omega)]
    refine ⟨rfl, ?_⟩
    have hdl : (arxivNormalizeAbstract a).length = (arxivNormalizeAbstract a).data.length := rfl
    have htk : ((arxivNormalizeAbstract a).data.take 500).length = 500 := by
      simp only [List.length_take]
      omega
    rw [String.length_append, stringMk_length, htk]
    rfl

/-- A github issue body of 601 characters with a space after the first
400. -/
def longGithubBody : String :=
  String.mk (List.replicate 400 'd') ++ " " ++ String.mk (List.replicate 200 'e')

set_option maxRecDepth 100000 in
/-- Witness for `truncation_amended` on a concrete over-budget github
issue body. -/
theorem truncation_amended_witness :
    githubTruncateBody longGithubBody =
      String.mk (takeBeforeLastSpace (longGithubBody.data.take 500)) ++ "..." ∧
    (githubTruncateBody longGithubBody).length ≤ 503 :=
  truncation_amended.2.2.1 longGithubBody (by decide)
